import Mathlib

/-!
Verification of the budget-filter / search-handler pipeline of `src/app.py`
(a Flask product-recommendation service).  Machine floats of the Python code
are modelled as `Rat`: every numeric value the code manipulates here is a
small decimal for which binary-float and rational comparison agree.
-/

/-- A JSON-ish scalar as it appears in a product's `rating` field:
`null`, a number, or a string. -/
inductive JValue where
  | null
  | num (q : Rat)
  | str (s : String)
deriving Repr, DecidableEq

/-- Python truthiness of a JSON scalar (`if p.get('rating')`):
`None` is falsy, a number is truthy iff nonzero, a string iff non-empty. -/
def JValue.truthy : JValue → Bool
  | .null => false
  | .num q => q ≠ 0
  | .str s => s ≠ ""

/-- Python `float(x)` on a JSON scalar, `none` modelling a raised exception
(`TypeError` on `None`, `ValueError` on a non-numeric string). -/
def pyFloat : JValue → Option Rat
  | .null => none
  | .num q => some q
  | .str s => parseFloatStr s
where
  /-- `float` on a string first strips surrounding whitespace, then accepts
  an optional sign and digits with at most one decimal point and at least
  one digit (the decimal-literal fragment of Python's grammar, which covers
  every rating string in scope). -/
  parseFloatStr (s : String) : Option Rat :=
    match ((s.toList.dropWhile Char.isWhitespace).reverse.dropWhile Char.isWhitespace).reverse with
    | [] => none
    | '+' :: rest => parseBody rest
    | '-' :: rest => (parseBody rest).map (fun q => -q)
    | cs => parseBody cs
  parseBody (cs : List Char) : Option Rat :=
    let intPart := cs.takeWhile Char.isDigit
    match cs.dropWhile Char.isDigit with
    | [] => if intPart = [] then none else some (natVal intPart : Rat)
    | '.' :: fracs =>
        if fracs.all Char.isDigit ∧ (intPart ≠ [] ∨ fracs ≠ []) then
          some ((natVal intPart : Rat) + (natVal fracs : Rat) / (10 ^ fracs.length : Nat))
        else none
    | _ => none
  natVal (cs : List Char) : Nat :=
    cs.foldl (fun a c => 10 * a + (c.toNat - 48)) 0

/-- A product record returned by the shopping-search API.  Each field is
optional: `none` models an absent key, so `p.get('price', '')` is
`p.price.getD ""`. -/
structure Product where
  title : Option String := none
  price : Option String := none
  rating : Option JValue := none
  reviewsCount : Option JValue := none
  source : Option String := none
  link : Option String := none
deriving Repr, DecidableEq

/-- `''.join(filter(str.isdigit, price_str.replace(',', '').replace('.', '')))`:
Python's `str.replace(c, '')` deletes every occurrence of `c`, and the
remaining characters are kept iff they are digits. -/
def extract_digits (s : String) : String :=
  String.mk ((((s.toList.filter (· ≠ ','))).filter (· ≠ '.')).filter Char.isDigit)

/-- The decimal value of a digit string (`float(price_num)` on the digits
extracted from a price; exact, since the digits form a natural number). -/
def digitsToNat (s : String) : Nat :=
  s.toList.foldl (fun a c => 10 * a + (c.toNat - 48)) 0

/-- The numeric price the loop body of `filter_by_budget` derives from a
non-empty price string: `none` when no digits survive extraction, otherwise
`float(price_num) / 100` when more than two digits remain (trailing two
digits are cents) and the whole-dollar value otherwise.  (`float` on a
non-empty digit string cannot raise, so the `except` arm of the source is
unreachable.) -/
def parse_price (price_str : String) : Option Rat :=
  let price_num := extract_digits price_str
  if price_num = "" then none
  else some (if price_num.length > 2 then (digitsToNat price_num : Rat) / 100
             else (digitsToNat price_num : Rat))

/-- `price ≤ max_price` where `none` stands for `float('inf')`. -/
def leMax (price : Rat) : Option Rat → Bool
  | none => true
  | some m => price ≤ m

/-- The per-product decision of `filter_by_budget`'s loop: a falsy
(absent or empty) price string skips the product; no extracted digits keeps
it (fail-open); otherwise it is kept iff `min_price <= price <= max_price`. -/
def keep_product (min_price : Rat) (max_price : Option Rat) (product : Product) : Bool :=
  let price_str := product.price.getD ""
  if price_str = "" then false
  else
    match parse_price price_str with
    | none => true
    | some price => decide (min_price ≤ price) && leMax price max_price

/-- The `budget_ranges` dict: label ↦ `(min_price, max_price)`, with `none`
as `float('inf')`; `none` overall for a label not in the dict. -/
def budget_ranges (label : String) : Option (Rat × Option Rat) :=
  if label = "Under $100" then some (0, some 100)
  else if label = "$100 - $300" then some (100, some 300)
  else if label = "$300 - $500" then some (300, some 500)
  else if label = "$500 - $1000" then some (500, some 1000)
  else if label = "Over $1000" then some (1000, none)
  else none

/-- `filter_by_budget(products, budget_range)`: `"No preference"` and
unrecognized labels pass the list through; a recognized bracket keeps the
products accepted by `keep_product`. -/
def filter_by_budget (products : List Product) (budget_range : String) : List Product :=
  if budget_range = "No preference" then products
  else
    match budget_ranges budget_range with
    | none => products
    | some (min_price, max_price) => products.filter (keep_product min_price max_price)

example : extract_digits "$1,299.99" = "129999" := by decide

example : parse_price "$1,299.99" = some (129999 / 100 : Rat) := by
  have h : extract_digits "$1,299.99" = "129999" := by decide
  have hl : ("129999" : String).length = 6 := by decide
  have hn : digitsToNat "129999" = 129999 := by decide
  simp [parse_price, h, hl, hn]

example : parse_price "$45.00" = some 45 := by
  have h : extract_digits "$45.00" = "4500" := by decide
  have hl : ("4500" : String).length = 4 := by decide
  have hn : digitsToNat "4500" = 4500 := by decide
  simp [parse_price, h, hl, hn]
  norm_num

example : parse_price "Free" = none := by decide

example : keep_product 0 (some 100) { price := some "$45.00" } = true := by
  have h : extract_digits "$45.00" = "4500" := by decide
  have hl : ("4500" : String).length = 4 := by decide
  have hn : digitsToNat "4500" = 4500 := by decide
  simp [keep_product, parse_price, leMax, h, hl, hn]
  norm_num

example : filter_by_budget [{ price := some "$150.00" }] "Under $100" = [] := by
  have h : extract_digits "$150.00" = "15000" := by decide
  have hl : ("15000" : String).length = 5 := by decide
  have hn : digitsToNat "15000" = 15000 := by decide
  simp [filter_by_budget, budget_ranges, keep_product, parse_price, leMax, h, hl, hn]
  norm_num

/-- The body of a 2xx search-API response after JSON decoding; `shopping` is
`none` when the key is absent (`data.get('shopping', [])`). -/
structure SerperBody where
  shopping : Option (List Product) := none
deriving Repr, DecidableEq

/-- `search_products_serper`: the `outcome` argument models the attempt
`requests.post(...); raise_for_status(); response.json()` — `Except.error`
for a transport error, non-2xx status or malformed body, `Except.ok` for the
decoded body.  The `except` arm returns `[]`; success returns the
`shopping` array verbatim, defaulting to `[]`.  The function is total: no
failure escapes it. -/
def search_products_serper (outcome : Except String SerperBody) : List Product :=
  match outcome with
  | .error _ => []
  | .ok data => data.shopping.getD []

/-- `get_ai_recommendations`: the `outcome` argument models the whole `try`
body (building the prompt and calling `model.generate_content`) —
`Except.ok` carries `response.text`, `Except.error e` a raised exception
with message `e`.  The `except` arm returns the inline error string
`f"Error generating recommendations: {str(e)}"`.  Total: never raises. -/
def get_ai_recommendations (outcome : Except String String) : String :=
  match outcome with
  | .ok text => text
  | .error e => "Error generating recommendations: " ++ e

/-- Python's `str.strip()`: remove leading and trailing whitespace. -/
def pyStrip (s : String) : String :=
  String.mk (((s.toList.dropWhile Char.isWhitespace).reverse.dropWhile Char.isWhitespace).reverse)

/-- The inbound JSON payload of `/search` with the `data.get` defaults
already applied. -/
structure SearchRequest where
  query : String := ""
  category : String := "Other"
  budget_range : String := "No preference"
  num_results : Int := 10
  brand_preference : String := ""
  feature_priority : List String := []
deriving Repr, DecidableEq

/-- The enhanced query: prefix the category unless it is `"Other"`, then
append the brand preference when non-empty. -/
def enhanced_query (req : SearchRequest) : String :=
  let q := req.query
  let q := if req.category ≠ "Other" then req.category ++ " " ++ q else q
  if req.brand_preference ≠ "" then q ++ " " ++ req.brand_preference else q

/-- The enhanced preferences text: the raw query, then
`". Important features: "` plus the comma-joined feature list when present,
then `". Preferred brand: "` plus the brand when present. -/
def preferences_text (req : SearchRequest) : String :=
  let t := req.query
  let t := if req.feature_priority ≠ [] then
      t ++ ". Important features: " ++ String.intercalate ", " req.feature_priority
    else t
  if req.brand_preference ≠ "" then t ++ ". Preferred brand: " ++ req.brand_preference else t

/-- Lines 180–184 of `src/app.py`: `avg_rating = 0`; when the filtered list
is non-empty, collect `float(p.get('rating', 0))` over the products whose
`p.get('rating')` is truthy, and average them when any were collected.
`none` models an uncaught exception raised by `float` on a truthy
non-numeric rating. -/
def compute_avg_rating (filtered_products : List Product) : Option Rat :=
  if filtered_products.isEmpty then some 0
  else
    let included := filtered_products.filter (fun p => (p.rating.getD .null).truthy)
    match included.mapM (fun p => pyFloat (p.rating.getD (.num 0))) with
    | none => none
    | some ratings =>
        if ratings.isEmpty then some 0
        else some (ratings.sum / (ratings.length : Rat))

/-- Round half to even at integer precision (Python's `round`). -/
def round_half_even (q : Rat) : Int :=
  if q - Int.floor q < 1/2 then Int.floor q
  else if q - Int.floor q > 1/2 then Int.floor q + 1
  else if 2 ∣ Int.floor q then Int.floor q
  else Int.floor q + 1

/-- Python's `round(x, 1)` on the (exactly represented) decimals in scope. -/
def round1 (q : Rat) : Rat := (round_half_even (q * 10) : Rat) / 10

/-- One outbound API call made while serving a request. -/
inductive ApiCall where
  | search (query : String) (num : Int)
  | generate (products : List Product) (user_preferences : String)
      (budget_range : String) (category : String)
deriving Repr, DecidableEq

/-- The JSON body (plus HTTP status) the `/search` handler produces:
`err status error` models `jsonify({'error': ...}), status`, and `success`
carries the fields of the 200 response in source order. -/
inductive HandlerResponse where
  | err (status : Nat) (error : String)
  | success (products_found : Nat) (products_after_filter : Nat) (avg_rating : Rat)
      (budget_range : String) (ai_recommendations : String) (products : List Product)
deriving Repr, DecidableEq

/-- The `/search` handler.  `searchApi` and `genApi` stand for the effectful
clients `search_products_serper` and `get_ai_recommendations` as functions
of the arguments the handler passes; the second component of the result
records each outbound call in program order.  The `Except.error` result
models an exception escaping the handler (only `float` on a truthy
non-numeric rating can raise one). -/
def search_handler (searchApi : String → Int → List Product)
    (genApi : List Product → String → String → String → String)
    (req : SearchRequest) : Except String HandlerResponse × List ApiCall :=
  if pyStrip req.query = "" then
    (.ok (.err 400 "Please enter a search query"), [])
  else
    let q := enhanced_query req
    let products := searchApi q req.num_results
    if products.isEmpty then
      (.ok (.err 404 "No products found. Try adjusting your search query."),
       [.search q req.num_results])
    else
      let filtered_products := filter_by_budget products req.budget_range
      let prefs := preferences_text req
      let ai_recommendations := genApi filtered_products prefs req.budget_range req.category
      let made := [ApiCall.search q req.num_results,
                   ApiCall.generate filtered_products prefs req.budget_range req.category]
      match compute_avg_rating filtered_products with
      | none => (.error "ValueError: could not convert rating to float", made)
      | some avg_rating =>
          (.ok (.success products.length filtered_products.length (round1 avg_rating)
                  req.budget_range ai_recommendations filtered_products), made)

example :
    compute_avg_rating [{ rating := some (.num (9/2)) }, { rating := none },
      { rating := some (.num 3) }] = some (15/4) := by
  simp [compute_avg_rating, JValue.truthy, pyFloat, List.mapM, List.mapM.loop]
  norm_num

example : compute_avg_rating [{ rating := some (.str "N/A") }] = none := by
  decide

/-! ## Helper lemmas -/

lemma no_preference_unrecognized : budget_ranges "No preference" = none := by decide

lemma filter_by_budget_eq_filter {label : String} {lo : Rat} {hi : Option Rat}
    (h : budget_ranges label = some (lo, hi)) (ps : List Product) :
    filter_by_budget ps label = ps.filter (keep_product lo hi) := by
  have hnp : label ≠ "No preference" := by
    intro he
    rw [he, no_preference_unrecognized] at h
    exact Option.noConfusion h
  unfold filter_by_budget
  rw [if_neg hnp, h]

lemma keep_product_of_digitless {p : Product} {s : String} (hp : p.price = some s)
    (hs : s ≠ "") (hd : extract_digits s = "") (lo : Rat) (hi : Option Rat) :
    keep_product lo hi p = true := by
  simp [keep_product, hp, hs, parse_price, hd]

lemma keep_product_of_blank {p : Product} (hp : p.price = none ∨ p.price = some "")
    (lo : Rat) (hi : Option Rat) : keep_product lo hi p = false := by
  rcases hp with h | h <;> simp [keep_product, h]

lemma budget_lo_le_hi {label : String} {lo hi : Rat}
    (h : budget_ranges label = some (lo, some hi)) : lo ≤ hi := by
  unfold budget_ranges at h
  split_ifs at h <;> simp_all <;> norm_num [← h.1, ← h.2]

/-! ## Claim theorems -/

/-- C10: for every product list and budget label, the output of
`filter_by_budget` is an order-preserving sublist of its input: every kept
record is an unmodified input record, relative order is preserved, and no
new record appears. -/
theorem filter_by_budget_sublist (ps : List Product) (label : String) :
    (filter_by_budget ps label).Sublist ps := by
  by_cases hnp : label = "No preference"
  · simp [filter_by_budget, hnp]
  · rcases hb : budget_ranges label with _ | ⟨lo, hi⟩
    · simp [filter_by_budget, hnp, hb]
    · rw [filter_by_budget_eq_filter hb]
      exact List.filter_sublist ps

/-- C5: for every recognized budget bracket (hence neither `"No preference"`
nor an unrecognized label), `filter_by_budget` is idempotent: filtering its
own output with the same label returns that output unchanged. -/
theorem filter_by_budget_idempotent (label : String) (lo : Rat) (hi : Option Rat)
    (h : budget_ranges label = some (lo, hi)) (ps : List Product) :
    filter_by_budget (filter_by_budget ps label) label = filter_by_budget ps label := by
  rw [filter_by_budget_eq_filter h, filter_by_budget_eq_filter h, List.filter_filter]
  simp

theorem filter_by_budget_idempotent_witness :
    filter_by_budget (filter_by_budget [{ price := some "Free" }] "Under $100") "Under $100" =
      filter_by_budget [{ price := some "Free" }] "Under $100" :=
  filter_by_budget_idempotent "Under $100" 0 (some 100) (by decide) [{ price := some "Free" }]

/-- C8: upstream failures never escape the client wrappers, whose codomains
are plain values: a failed search attempt (transport error, non-2xx status,
malformed body) yields `[]`, a successful one the `shopping` array
defaulted to `[]`; a failed generation attempt yields the inline string
`"Error generating recommendations: "` plus the message, a successful one
the response text. -/
theorem upstream_failures_contained (f g : String) (body : SerperBody) (text : String) :
    search_products_serper (Except.error f) = [] ∧
    search_products_serper (Except.ok body) = body.shopping.getD [] ∧
    get_ai_recommendations (Except.error g) = "Error generating recommendations: " ++ g ∧
    get_ai_recommendations (Except.ok text) = text :=
  ⟨rfl, rfl, rfl, rfl⟩

/-- C9: under every recognized budget bracket, a product whose price field
is absent or the empty string is dropped by `filter_by_budget`, even though
a product whose price is a non-empty string with no digits is kept: the
fail-open rule does not extend to absent prices. -/
theorem filter_drops_blank_price (label : String) (lo : Rat) (hi : Option Rat)
    (h : budget_ranges label = some (lo, hi)) (ps : List Product) :
    (∀ p : Product, p.price = none ∨ p.price = some "" →
      p ∉ filter_by_budget ps label) ∧
    (∀ p : Product, ∀ s : String, p.price = some s → s ≠ "" → extract_digits s = "" →
      p ∈ ps → p ∈ filter_by_budget ps label) := by
  rw [filter_by_budget_eq_filter h]
  constructor
  · intro p hp hmem
    have := (List.mem_filter.mp hmem).2
    rw [keep_product_of_blank hp] at this
    exact Bool.noConfusion this
  · intro p s hp hs hd hmem
    exact List.mem_filter.mpr ⟨hmem, keep_product_of_digitless hp hs hd lo hi⟩

theorem filter_drops_blank_price_witness :
    (({ price := none } : Product) ∉
        filter_by_budget [({ price := none } : Product), { price := some "Free" }] "Under $100") ∧
    (({ price := some "Free" } : Product) ∈
        filter_by_budget [({ price := none } : Product), { price := some "Free" }] "Under $100") :=
  ⟨(filter_drops_blank_price "Under $100" 0 (some 100) (by decide) _).1
      { price := none } (Or.inl rfl),
   (filter_drops_blank_price "Under $100" 0 (some 100) (by decide) _).2
      { price := some "Free" } "Free" rfl (by decide) (by decide) (by simp)⟩

/-- C1 counterexample: under the recognized bracket `"Under $100"`, a
product with an absent price field — whose price string therefore cannot be
parsed to any digits — is dropped, not kept, refuting the claim that the
fail-open rule covers absent and empty price fields. -/
theorem filter_absent_price_counterexample :
    filter_by_budget [({ price := none } : Product)] "Under $100" = [] := by
  decide

/-- C1 (amended): for every recognized budget bracket and every product
whose price field is a *non-empty* string containing no digits,
`filter_by_budget` keeps that product in its output (fail-open); the rule
does not cover absent or empty price fields. -/
theorem filter_fail_open_digitless (label : String) (lo : Rat) (hi : Option Rat)
    (h : budget_ranges label = some (lo, hi)) (ps : List Product) (p : Product)
    (s : String) (hp : p.price = some s) (hs : s ≠ "") (hd : extract_digits s = "")
    (hmem : p ∈ ps) : p ∈ filter_by_budget ps label := by
  rw [filter_by_budget_eq_filter h]
  exact List.mem_filter.mpr ⟨hmem, keep_product_of_digitless hp hs hd lo hi⟩

theorem filter_fail_open_digitless_witness :
    ({ price := some "Free" } : Product) ∈
      filter_by_budget [({ price := some "Free" } : Product)] "Over $1000" :=
  filter_fail_open_digitless "Over $1000" 1000 none (by decide) _ _ "Free" rfl
    (by decide) (by decide) (by simp)

/-- C3 counterexample: under `"Under $100"` (bounds 0 and 100), the product
priced `"$100.00"` — whose parsed price is exactly the upper bound 100 — is
kept, not dropped: the range check `min_price <= price <= max_price` is
inclusive on both ends, so the brackets are not half-open. -/
theorem bracket_upper_inclusive_counterexample :
    filter_by_budget [({ price := some "$100.00" } : Product)] "Under $100" =
      [({ price := some "$100.00" } : Product)] := by
  have h : extract_digits "$100.00" = "10000" := by decide
  have hl : ("10000" : String).length = 5 := by decide
  have hn : digitsToNat "10000" = 10000 := by decide
  simp [filter_by_budget, budget_ranges, keep_product, parse_price, leMax, h, hl, hn]
  norm_num

/-- C3 (amended): for every recognized budget bracket with a finite upper
bound, a product whose parsed price equals exactly that bound is *kept* by
`filter_by_budget`: the bracket ranges are closed `[min, max]`. -/
theorem filter_keeps_price_at_max (label : String) (lo hi : Rat)
    (h : budget_ranges label = some (lo, some hi)) (ps : List Product) (p : Product)
    (s : String) (hp : p.price = some s) (hparse : parse_price s = some hi)
    (hmem : p ∈ ps) : p ∈ filter_by_budget ps label := by
  rw [filter_by_budget_eq_filter h]
  refine List.mem_filter.mpr ⟨hmem, ?_⟩
  have hs : s ≠ "" := by
    intro he
    rw [he] at hparse
    simp [parse_price, extract_digits] at hparse
  simp [keep_product, hp, hs, hparse, leMax, budget_lo_le_hi h]

theorem filter_keeps_price_at_max_witness :
    ({ price := some "$100.00" } : Product) ∈
      filter_by_budget [({ price := some "$100.00" } : Product)] "Under $100" := by
  apply filter_keeps_price_at_max "Under $100" 0 100 (by decide) _ _ "$100.00" rfl ?_ (by simp)
  have h : extract_digits "$100.00" = "10000" := by decide
  have hl : ("10000" : String).length = 5 := by decide
  have hn : digitsToNat "10000" = 10000 := by decide
  simp [parse_price, h, hl, hn]
  norm_num

/-- C4: price parsing extracts the digits of the price string after
stripping commas and periods; with more than two digits the value is the
digit string divided by 100 (trailing two digits are cents), otherwise the
whole-dollar integer.  Concretely `"$1,299.99"` parses to `1299.99` and is
kept by `"Over $1000"`; under `"Under $100"`, `"$45.00"` is kept and
`"$150.00"` is dropped. -/
theorem price_parsing_spec :
    (∀ s : String, extract_digits s ≠ "" → 2 < (extract_digits s).length →
        parse_price s = some ((digitsToNat (extract_digits s) : Rat) / 100)) ∧
    (∀ s : String, extract_digits s ≠ "" → (extract_digits s).length ≤ 2 →
        parse_price s = some ((digitsToNat (extract_digits s) : Rat))) ∧
    parse_price "$1,299.99" = some (1299.99 : Rat) ∧
    filter_by_budget [({ price := some "$1,299.99" } : Product)] "Over $1000" =
      [({ price := some "$1,299.99" } : Product)] ∧
    filter_by_budget [({ price := some "$45.00" } : Product)] "Under $100" =
      [({ price := some "$45.00" } : Product)] ∧
    filter_by_budget [({ price := some "$150.00" } : Product)] "Under $100" = [] := by
  refine ⟨?_, ?_, ?_, ?_, ?_, ?_⟩
  · intro s h1 h2
    simp [parse_price, h1, h2]
  · intro s h1 h2
    have h3 : ¬ 2 < (extract_digits s).length := Nat.not_lt.mpr h2
    simp [parse_price, h1, h3]
  · have h : extract_digits "$1,299.99" = "129999" := by decide
    have hl : ("129999" : String).length = 6 := by decide
    have hn : digitsToNat "129999" = 129999 := by decide
    simp [parse_price, h, hl, hn]
    norm_num
  · have h : extract_digits "$1,299.99" = "129999" := by decide
    have hl : ("129999" : String).length = 6 := by decide
    have hn : digitsToNat "129999" = 129999 := by decide
    simp [filter_by_budget, budget_ranges, keep_product, parse_price, leMax, h, hl, hn]
    norm_num
  · have h : extract_digits "$45.00" = "4500" := by decide
    have hl : ("4500" : String).length = 4 := by decide
    have hn : digitsToNat "4500" = 4500 := by decide
    simp [filter_by_budget, budget_ranges, keep_product, parse_price, leMax, h, hl, hn]
    norm_num
  · have h : extract_digits "$150.00" = "15000" := by decide
    have hl : ("15000" : String).length = 5 := by decide
    have hn : digitsToNat "15000" = 15000 := by decide
    simp [filter_by_budget, budget_ranges, keep_product, parse_price, leMax, h, hl, hn]
    norm_num

theorem price_parsing_spec_witness :
    parse_price "$1,299.99" = some ((digitsToNat (extract_digits "$1,299.99") : Rat) / 100) :=
  price_parsing_spec.1 "$1,299.99" (by decide) (by decide)

/-- C6: when the query string strips to empty, the handler returns the
400 response with its error message and the outbound-call log is empty: no
search or generation call is made, whatever the clients would return. -/
theorem empty_query_returns_400
    (searchApi : String → Int → List Product)
    (genApi : List Product → String → String → String → String)
    (req : SearchRequest) (h : pyStrip req.query = "") :
    search_handler searchApi genApi req =
      (Except.ok (HandlerResponse.err 400 "Please enter a search query"), []) := by
  unfold search_handler
  rw [if_pos h]

theorem empty_query_returns_400_witness :
    search_handler (fun _ _ => []) (fun _ _ _ _ => "") { query := "   " } =
      (Except.ok (HandlerResponse.err 400 "Please enter a search query"), []) :=
  empty_query_returns_400 (fun _ _ => []) (fun _ _ _ _ => "") { query := "   " } (by decide)

/-- C7: when the search client returns an empty product list (for a request
that passed query validation), the handler returns the 404 response with
its error message, and the generation client is never invoked: the call log
holds exactly the one search call and no generation call. -/
theorem empty_results_returns_404
    (searchApi : String → Int → List Product)
    (genApi : List Product → String → String → String → String)
    (req : SearchRequest) (hq : pyStrip req.query ≠ "")
    (hs : searchApi (enhanced_query req) req.num_results = []) :
    search_handler searchApi genApi req =
      (Except.ok (HandlerResponse.err 404 "No products found. Try adjusting your search query."),
        [ApiCall.search (enhanced_query req) req.num_results]) ∧
    ∀ fp prefs b cat,
      ApiCall.generate fp prefs b cat ∉ (search_handler searchApi genApi req).2 := by
  have hmain : search_handler searchApi genApi req =
      (Except.ok (HandlerResponse.err 404 "No products found. Try adjusting your search query."),
        [ApiCall.search (enhanced_query req) req.num_results]) := by
    simp [search_handler, hq, hs]
  refine ⟨hmain, ?_⟩
  intro fp prefs b cat
  rw [hmain]
  simp

theorem empty_results_returns_404_witness :
    (search_handler (fun _ _ => []) (fun _ _ _ _ => "") { query := "laptop" } =
      (Except.ok (HandlerResponse.err 404 "No products found. Try adjusting your search query."),
        [ApiCall.search (enhanced_query { query := "laptop" })
          ({ query := "laptop" } : SearchRequest).num_results])) ∧
    ApiCall.generate [] "" "" "" ∉
      (search_handler (fun _ _ => []) (fun _ _ _ _ => "") { query := "laptop" }).2 := by
  have h := empty_results_returns_404 (fun _ _ => []) (fun _ _ _ _ => "")
    { query := "laptop" } (by decide) rfl
  exact ⟨h.1, h.2 [] "" "" ""⟩

lemma search_handler_success_avg
    {searchApi : String → Int → List Product}
    {genApi : List Product → String → String → String → String}
    {req : SearchRequest} {n m : Nat} {a : Rat} {b t : String} {qs : List Product}
    (hok : (search_handler searchApi genApi req).1 =
      Except.ok (HandlerResponse.success n m a b t qs)) :
    ∃ q : Rat,
      compute_avg_rating (filter_by_budget
        (searchApi (enhanced_query req) req.num_results) req.budget_range) = some q ∧
      a = round1 q := by
  unfold search_handler at hok
  by_cases h1 : pyStrip req.query = ""
  · rw [if_pos h1] at hok
    exact absurd hok (by simp)
  · rw [if_neg h1] at hok
    dsimp only at hok
    by_cases h2 : (searchApi (enhanced_query req) req.num_results).isEmpty
    · rw [if_pos h2] at hok
      exact absurd hok (by simp)
    · rw [if_neg h2] at hok
      rcases hc : compute_avg_rating (filter_by_budget
          (searchApi (enhanced_query req) req.num_results) req.budget_range) with _ | q
      · simp only [hc] at hok
        exact absurd hok (by simp)
      · simp only [hc, Except.ok.injEq, HandlerResponse.success.injEq] at hok
        exact ⟨q, rfl, hok.2.2.1.symm⟩

/-- C2 counterexample: a filtered product whose rating is the truthy
non-numeric string `"N/A"` is not skipped — `float` raises, so the
average-rating computation (modelled by `none`) aborts instead of yielding
a value, and the exception escapes the handler. -/
theorem avg_rating_raises_counterexample :
    compute_avg_rating [({ rating := some (JValue.str "N/A") } : Product)] = none ∧
    (search_handler (fun _ _ => [({ rating := some (JValue.str "N/A") } : Product)])
        (fun _ _ _ _ => "") { query := "laptop" }).1 =
      Except.error "ValueError: could not convert rating to float" := by
  constructor
  · decide
  · have hstrip : pyStrip "laptop" = "laptop" := by decide
    have hc : compute_avg_rating (filter_by_budget
        [({ rating := some (JValue.str "N/A") } : Product)] "No preference") = none := by
      decide
    simp [search_handler, hstrip, hc]

/-- C2 (amended): the average rating is computed from the filtered products
only — a successful response's `avg_rating` field is the rounded average
that `compute_avg_rating` yields on the budget-filtered search results;
falsy rating fields (absent, `null`, zero, empty string) are skipped, and
when every rating is falsy the average defaults to zero; for filtered
ratings `{4.5, None, 3.0}` it yields `3.75`.  Truthy ratings are converted
with `float`, which raises on a non-numeric string rather than skipping it. -/
theorem avg_rating_filtered_only :
    compute_avg_rating [({ rating := some (JValue.num (9/2)) } : Product), { rating := none },
        { rating := some (JValue.num 3) }] = some (15/4) ∧
    (∀ ps : List Product, (∀ p ∈ ps, (p.rating.getD JValue.null).truthy = false) →
        compute_avg_rating ps = some 0) ∧
    (∀ (searchApi : String → Int → List Product)
        (genApi : List Product → String → String → String → String)
        (req : SearchRequest) (n m : Nat) (a : Rat) (b t : String) (qs : List Product),
        (search_handler searchApi genApi req).1 =
          Except.ok (HandlerResponse.success n m a b t qs) →
        ∃ q : Rat, compute_avg_rating (filter_by_budget
            (searchApi (enhanced_query req) req.num_results) req.budget_range) = some q ∧
          a = round1 q) := by
  refine ⟨?_, ?_, ?_⟩
  · simp [compute_avg_rating, JValue.truthy, pyFloat, List.mapM, List.mapM.loop]
    norm_num
  · intro ps hfalsy
    unfold compute_avg_rating
    by_cases hps : ps.isEmpty
    · simp [hps]
    · have hempty : ps.filter (fun p => (p.rating.getD JValue.null).truthy) = [] := by
        rw [List.filter_eq_nil_iff]
        intro p hp
        simp [hfalsy p hp]
      simp [hps, hempty, List.mapM, List.mapM.loop]
  · intro searchApi genApi req n m a b t qs hok
    exact search_handler_success_avg hok

theorem avg_rating_filtered_only_witness :
    compute_avg_rating [({ rating := some JValue.null } : Product), { rating := none },
        { rating := some (JValue.str "") }, { rating := some (JValue.num 0) }] = some 0 :=
  avg_rating_filtered_only.2.1
    [({ rating := some JValue.null } : Product), { rating := none },
      { rating := some (JValue.str "") }, { rating := some (JValue.num 0) }]
    (by decide)
